import Mathlib

/-!
Shallow embedding of `src/sql.rs` (rust-g's SQL module): the JSON <-> MySQL
value codec (`json_to_mysql` and the per-cell conversion in `do_query`),
the parameter binder, the query executor's pool-slot handling, and the
argument parsing of `sql_connect_pool`.

Modelling conventions:
 * `serde_json::Number` keeps serde_json's three-variant representation
   (`PosInt : u64` / `NegInt : i64` / `Float : f64`); the accessors
   `as_u64` / `as_i64` match serde_json's variant-based behaviour.
 * `f64` values are modelled by `F64`, which records only the structure the
   code inspects: whether the value is finite (carrier data `sig`/`ex`
   stands for an arbitrary finite float), or NaN / an infinity.
 * machine-integer casts are explicit `% 256` (Rust's `as u8`).
 * external effects (the connection pool, the server) are modelled by
   explicit data: `do_query` takes the pool slot contents as an `Option`
   and the pool/connection carry `Except`-valued operations.
-/

/-- Model of `f64` as far as the code inspects it: finiteness structure.
`finite sig ex` stands for an arbitrary finite double (payload data is
opaque to the code under study); `Number::from_f64` rejects exactly the
non-finite values. -/
inductive F64
  | finite (sig : Int) (ex : Int)
  | nan
  | inf
  | negInf
deriving DecidableEq, Repr

/-- serde_json's `Number`: `PosInt(u64)` for non-negative integers,
`NegInt(i64)` for negative integers, `Float(f64)` otherwise. -/
inductive JNumber
  | pos (n : Nat)
  | neg (i : Int)
  | float (f : F64)
deriving DecidableEq, Repr

/-- serde_json's `Value`. -/
inductive Json
  | null
  | bool (b : Bool)
  | num (n : JNumber)
  | str (s : String)
  | arr (a : List Json)
  | obj (o : List (String × Json))
deriving Repr

/-- serde_json `Number::as_u64`: `Some` exactly on the `PosInt` variant. -/
def number_as_u64 : JNumber → Option Nat
  | .pos n => some n
  | _ => none

/-- serde_json `Number::as_i64`: `PosInt` if it fits `i64`, `NegInt` always,
`Float` never. -/
def number_as_i64 : JNumber → Option Int
  | .pos n => if n ≤ 2 ^ 63 - 1 then some (n : Int) else none
  | .neg i => some i
  | .float _ => none

/-- serde_json `Number::as_f64`: always `Some`; for the integer variants the
result is the `as f64` cast (modelled only as far as finiteness, which is all
the code ever looks at; `json_to_mysql` matches the integer accessors first,
so this branch of the cast is unreachable there). -/
def number_as_f64 : JNumber → Option F64
  | .pos n => some (.finite (n : Int) 0)
  | .neg i => some (.finite i 0)
  | .float f => some f

/-- serde_json `Number::from_f64`: `None` exactly on NaN and infinities. -/
def number_from_f64 : F64 → Option JNumber
  | .finite s e => some (.float (.finite s e))
  | _ => none

/-- serde_json `Number::from(i64)` (used for `Number::from(*i)`). -/
def number_from_i64 (i : Int) : JNumber :=
  if 0 ≤ i then .pos i.toNat else .neg i

/-- `mysql::Value` (the variants of the mysql crate's value enum; `Bytes`
holds `u8`s modelled as `Nat`s below 256). -/
inductive MysqlValue
  | NULL
  | Bytes (b : List Nat)
  | Int (i : Int)
  | UInt (u : Nat)
  | Float (f : F64)
  | Date (year month day hour minute second micro : Nat)
  | Time (neg : Bool) (days hours minutes seconds micro : Nat)
deriving DecidableEq, Repr

/-- `mysql::consts::ColumnType`. -/
inductive ColumnType
  | MYSQL_TYPE_DECIMAL
  | MYSQL_TYPE_TINY
  | MYSQL_TYPE_SHORT
  | MYSQL_TYPE_LONG
  | MYSQL_TYPE_FLOAT
  | MYSQL_TYPE_DOUBLE
  | MYSQL_TYPE_NULL
  | MYSQL_TYPE_TIMESTAMP
  | MYSQL_TYPE_LONGLONG
  | MYSQL_TYPE_INT24
  | MYSQL_TYPE_DATE
  | MYSQL_TYPE_TIME
  | MYSQL_TYPE_DATETIME
  | MYSQL_TYPE_YEAR
  | MYSQL_TYPE_NEWDATE
  | MYSQL_TYPE_VARCHAR
  | MYSQL_TYPE_BIT
  | MYSQL_TYPE_TIMESTAMP2
  | MYSQL_TYPE_DATETIME2
  | MYSQL_TYPE_TIME2
  | MYSQL_TYPE_JSON
  | MYSQL_TYPE_NEWDECIMAL
  | MYSQL_TYPE_ENUM
  | MYSQL_TYPE_SET
  | MYSQL_TYPE_TINY_BLOB
  | MYSQL_TYPE_MEDIUM_BLOB
  | MYSQL_TYPE_LONG_BLOB
  | MYSQL_TYPE_BLOB
  | MYSQL_TYPE_VAR_STRING
  | MYSQL_TYPE_STRING
  | MYSQL_TYPE_GEOMETRY
deriving DecidableEq, Repr

/-- UTF-8 encoding of one scalar value (Rust `String::into_bytes` per char). -/
def utf8EncodeChar (c : Char) : List Nat :=
  let n := c.toNat
  if n < 0x80 then [n]
  else if n < 0x800 then [0xC0 + n / 0x40, 0x80 + n % 0x40]
  else if n < 0x10000 then
    [0xE0 + n / 0x1000, 0x80 + n / 0x40 % 0x40, 0x80 + n % 0x40]
  else
    [0xF0 + n / 0x40000, 0x80 + n / 0x1000 % 0x40, 0x80 + n / 0x40 % 0x40,
      0x80 + n % 0x40]

/-- UTF-8 bytes of a string (Rust `s.into(): Vec<u8>` on a `String`). -/
def utf8Encode (s : String) : List Nat :=
  s.data.foldr (fun c acc => utf8EncodeChar c ++ acc) []

/-- The element conversion inside `json_to_mysql`'s array arm:
`if let Number(n) = x { n.as_u64().unwrap_or(0) as u8 } else { 0 }`. -/
def arr_elem_byte (x : Json) : Nat :=
  match x with
  | .num n => (number_as_u64 n).getD 0 % 256
  | _ => 0

/-- `json_to_mysql` from `src/sql.rs`. -/
def json_to_mysql (val : Json) : MysqlValue :=
  match val with
  | .bool b => .UInt (if b then 1 else 0)
  | .num i =>
    match number_as_u64 i with
    | some v => .UInt v
    | none =>
      match number_as_i64 i with
      | some v => .Int v
      | none =>
        match number_as_f64 i with
        | some v => .Float v
        | none => .NULL
  | .str s => .Bytes (utf8Encode s)
  | .arr a => .Bytes (a.map arr_elem_byte)
  | _ => .NULL

/-- `mysql::Params`. -/
inductive Params
  | Empty
  | Positional (l : List MysqlValue)
  | Named (l : List (String × MysqlValue))
deriving Repr

/-- `array_to_params` from `src/sql.rs`. -/
def array_to_params (params : List Json) : Params :=
  if params.isEmpty then .Empty
  else .Positional (params.map json_to_mysql)

/-- `object_to_params` from `src/sql.rs`. -/
def object_to_params (params : List (String × Json)) : Params :=
  if params.isEmpty then .Empty
  else .Named (params.map (fun kv => (kv.1, json_to_mysql kv.2)))

/-- `params_from_json` from `src/sql.rs`, taking the outcome of the external
`serde_json::from_str` call (`none` models any parse failure). -/
def params_from_json (parsed : Option Json) : Params :=
  match parsed with
  | some (.obj o) => object_to_params o
  | some (.arr a) => array_to_params a
  | _ => .Empty

/-- The Unicode replacement character U+FFFD. -/
def repChar : Char := Char.ofNat 0xFFFD

/-- Is `b` a UTF-8 continuation byte (`0x80..=0xBF`)? -/
def isCont (b : Nat) : Bool := decide (0x80 ≤ b) && decide (b ≤ 0xBF)

/-- Valid second byte of a three-byte UTF-8 sequence headed by `b0`
(core::str validation table: excludes overlong forms and surrogates). -/
def utf8Sec3 (b0 b1 : Nat) : Bool :=
  (decide (b0 = 0xE0) && decide (0xA0 ≤ b1) && decide (b1 ≤ 0xBF)) ||
  (decide (0xE1 ≤ b0) && decide (b0 ≤ 0xEC) && isCont b1) ||
  (decide (b0 = 0xED) && decide (0x80 ≤ b1) && decide (b1 ≤ 0x9F)) ||
  (decide (0xEE ≤ b0) && decide (b0 ≤ 0xEF) && isCont b1)

/-- Valid second byte of a four-byte UTF-8 sequence headed by `b0`
(excludes overlong forms and values above U+10FFFF). -/
def utf8Sec4 (b0 b1 : Nat) : Bool :=
  (decide (b0 = 0xF0) && decide (0x90 ≤ b1) && decide (b1 ≤ 0xBF)) ||
  (decide (0xF1 ≤ b0) && decide (b0 ≤ 0xF3) && isCont b1) ||
  (decide (b0 = 0xF4) && decide (0x80 ≤ b1) && decide (b1 ≤ 0x8F))

/-- One pass of Rust `String::from_utf8_lossy` over a byte list, written with
a structural fuel argument (each step consumes at least one byte, so fuel
equal to the list length, as `utf8Lossy` passes, never runs out; the
fuel-exhausted arm is unreachable). Returns the decoded characters together
with a flag that is `true` iff the input was valid UTF-8 (no replacement
performed). Invalid sequences are replaced by `repChar` following Rust's
maximal-subpart policy: a rejected first byte consumes one byte; a rejected
continuation byte consumes only the bytes validated before it; a truncated
final sequence consumes the rest. -/
def utf8LossyGo : Nat → List Nat → List Char × Bool
  | 0, _ => ([], true)
  | _, [] => ([], true)
  | fuel + 1, b0 :: rest =>
    if b0 < 0x80 then
      let p := utf8LossyGo fuel rest
      (Char.ofNat b0 :: p.1, p.2)
    else if 0xC2 ≤ b0 ∧ b0 ≤ 0xDF then
      match rest with
      | [] => ([repChar], false)
      | b1 :: r =>
        if isCont b1 then
          let p := utf8LossyGo fuel r
          (Char.ofNat (0x40 * (b0 - 0xC0) + (b1 - 0x80)) :: p.1, p.2)
        else
          let p := utf8LossyGo fuel (b1 :: r)
          (repChar :: p.1, false)
    else if 0xE0 ≤ b0 ∧ b0 ≤ 0xEF then
      match rest with
      | [] => ([repChar], false)
      | b1 :: r =>
        if utf8Sec3 b0 b1 then
          match r with
          | [] => ([repChar], false)
          | b2 :: r2 =>
            if isCont b2 then
              let p := utf8LossyGo fuel r2
              (Char.ofNat (0x1000 * (b0 - 0xE0) + 0x40 * (b1 - 0x80) + (b2 - 0x80))
                :: p.1, p.2)
            else
              let p := utf8LossyGo fuel (b2 :: r2)
              (repChar :: p.1, false)
        else
          let p := utf8LossyGo fuel (b1 :: r)
          (repChar :: p.1, false)
    else if 0xF0 ≤ b0 ∧ b0 ≤ 0xF4 then
      match rest with
      | [] => ([repChar], false)
      | b1 :: r =>
        if utf8Sec4 b0 b1 then
          match r with
          | [] => ([repChar], false)
          | b2 :: r2 =>
            if isCont b2 then
              match r2 with
              | [] => ([repChar], false)
              | b3 :: r3 =>
                if isCont b3 then
                  let p := utf8LossyGo fuel r3
                  (Char.ofNat (0x40000 * (b0 - 0xF0) + 0x1000 * (b1 - 0x80) +
                      0x40 * (b2 - 0x80) + (b3 - 0x80)) :: p.1, p.2)
                else
                  let p := utf8LossyGo fuel (b3 :: r3)
                  (repChar :: p.1, false)
            else
              let p := utf8LossyGo fuel (b2 :: r2)
              (repChar :: p.1, false)
        else
          let p := utf8LossyGo fuel (b1 :: r)
          (repChar :: p.1, false)
    else
      let p := utf8LossyGo fuel rest
      (repChar :: p.1, false)

/-- Rust `String::from_utf8_lossy` over a byte list: decoded characters plus
a validity flag. -/
def utf8Lossy (l : List Nat) : List Char × Bool := utf8LossyGo l.length l

/-- The decoded string of `String::from_utf8_lossy(&b).into_owned()`. -/
def lossyString (b : List Nat) : String := String.mk (utf8Lossy b).1

/-- Is `b` valid UTF-8 (Rust `str::from_utf8(&b).is_ok()`)? -/
def isValidUtf8 (b : List Nat) : Bool := (utf8Lossy b).2

/-- Rust `format!` directive `{:02}`: zero-pad to width two. -/
def pad2 (n : Nat) : String :=
  if n < 10 then "0" ++ Nat.repr n else Nat.repr n

/-- The `format!` call of the `mysql::Value::Date` arm in `do_query`:
the year is printed by plain unpadded decimal, the other components zero-padded
to two digits, and the microsecond component not printed at all. -/
def dateString (year month day hour minute second : Nat) : String :=
  Nat.repr year ++ "-" ++ pad2 month ++ "-" ++ pad2 day ++ " " ++
    pad2 hour ++ ":" ++ pad2 minute ++ ":" ++ pad2 second

/-- The per-cell conversion in `do_query` (`let converted = match value {...}`),
parameterised by the cell value, the column type (`col.column_type()`) and
whether `col.flags()` contains `BINARY_FLAG`. -/
def encode_cell (value : MysqlValue) (ctype : ColumnType) (binary : Bool) :
    Json :=
  match value with
  | .Bytes b =>
    match ctype with
    | .MYSQL_TYPE_VARCHAR | .MYSQL_TYPE_STRING | .MYSQL_TYPE_VAR_STRING =>
      .str (lossyString b)
    | .MYSQL_TYPE_BLOB | .MYSQL_TYPE_LONG_BLOB | .MYSQL_TYPE_MEDIUM_BLOB
    | .MYSQL_TYPE_TINY_BLOB =>
      if binary then .arr (b.map (fun x => .num (.pos x)))
      else .str (lossyString b)
    | _ => .null
  | .Float f => .num ((number_from_f64 f).getD (.pos 0))
  | .Int i => .num (number_from_i64 i)
  | .UInt u => .num (.pos u)
  | .Date year month day hour minute second _ms =>
    .str (dateString year month day hour minute second)
  | _ => .null

/-- One result set as produced by the external `conn.exec_iter` call:
the affected-row count, the per-column metadata (`column_type()`, and whether
`flags()` contains `BINARY_FLAG`), and the rows, each of which may itself
fail to fetch (the `row?` in the loop). -/
structure DbResultSet where
  affected : Nat
  columns : List (ColumnType × Bool)
  rows : List (Except String (List MysqlValue))

/-- A checked-out connection: the external query execution, which may fail. -/
structure DbConn where
  exec : String → Params → Except String DbResultSet

/-- A pool in the slot: `get_conn()` may fail. -/
structure DbPool where
  getConn : Except String DbConn

/-- The inner `for i in 0..row.len()` loop of `do_query`: one output row. -/
def encode_row (columns : List (ColumnType × Bool)) (row : List MysqlValue) :
    Json :=
  .arr ((row.zip columns).map (fun c => encode_cell c.1 c.2.1 c.2.2))

/-- The row loop of `do_query`: a failing row fetch aborts the whole query. -/
def encode_rows (columns : List (ColumnType × Bool))
    (rows : List (Except String (List MysqlValue))) :
    Except String (List Json) :=
  rows.mapM (fun r => r.map (encode_row columns))

/-- `do_query` from `src/sql.rs`. The pool slot's contents stand in for
`&*POOL.read()` (the claims under study do not concern lock poisoning), and
`params` is the outcome of the external `serde_json::from_str` on the raw
parameter text. -/
def do_query (pool : Option DbPool) (query : String) (params : Option Json) :
    Except String Json :=
  match pool with
  | none => .ok (.obj [("status", .str "offline")])
  | some p => do
    let conn ← p.getConn
    let res ← conn.exec query (params_from_json params)
    let rows ← encode_rows res.columns res.rows
    .ok (.obj [("status", .str "ok"),
               ("affected", .num (.pos res.affected)),
               ("rows", .arr rows)])

/-- Digit-string value (helper for Rust's integer `FromStr`). -/
def parseDigits : List Char → Option Nat
  | [] => none
  | l =>
    if l.all Char.isDigit then
      some (l.foldl (fun acc c => 10 * acc + (c.toNat - 48)) 0)
    else none

/-- Rust's unsigned-integer `from_str` before the width check: an optional
leading `+`, then one or more ASCII digits and nothing else. -/
def rust_parse_nat (s : String) : Option Nat :=
  match s.data with
  | [] => none
  | c :: rest => if c = '+' then parseDigits rest else parseDigits (c :: rest)

/-- Rust `str::parse::<u16>`: fails on overflow. -/
def rust_parse_u16 (s : String) : Option Nat :=
  (rust_parse_nat s).bind (fun n => if n < 2 ^ 16 then some n else none)

/-- Rust `str::parse::<u64>`: fails on overflow. -/
def rust_parse_u64 (s : String) : Option Nat :=
  (rust_parse_nat s).bind (fun n => if n < 2 ^ 64 then some n else none)

/-- Rust `str::parse::<usize>` (64-bit target): fails on overflow. -/
def rust_parse_usize (s : String) : Option Nat :=
  (rust_parse_nat s).bind (fun n => if n < 2 ^ 64 then some n else none)

/-- The argument tuple `sql_connect_pool` hands to `sql_connect` (the pool
construction itself is external I/O; `timeoutSecs` models
`Duration::from_secs`). -/
structure ConnectCall where
  host : String
  port : Nat
  user : String
  pass : String
  db : String
  timeoutSecs : Nat
  minThreads : Nat
  maxThreads : Nat
deriving DecidableEq, Repr

/-- The argument parsing of the `sql_connect_pool` entry point:
`port.parse::<u16>().unwrap_or(3306)` and so on. -/
def sql_connect_pool_args (host port user pass db timeout minThreads
    maxThreads : String) : ConnectCall :=
  { host := host
    port := (rust_parse_u16 port).getD 3306
    user := user
    pass := pass
    db := db
    timeoutSecs := (rust_parse_u64 timeout).getD 10
    minThreads := (rust_parse_usize minThreads).getD 1
    maxThreads := (rust_parse_usize maxThreads).getD 50 }

/-- The character column types of the first arm of the `Bytes` match in
`do_query`. -/
def isCharType : ColumnType → Bool
  | .MYSQL_TYPE_VARCHAR | .MYSQL_TYPE_STRING | .MYSQL_TYPE_VAR_STRING => true
  | _ => false

/-- The large-object column types of the second arm of the `Bytes` match in
`do_query`. -/
def isBlobType : ColumnType → Bool
  | .MYSQL_TYPE_BLOB | .MYSQL_TYPE_LONG_BLOB | .MYSQL_TYPE_MEDIUM_BLOB
  | .MYSQL_TYPE_TINY_BLOB => true
  | _ => false

/-- Is this dynamic value a number? -/
def isNumJson : Json → Bool
  | .num _ => true
  | _ => false

/-- The shapes the DB-to-dynamic direction is allowed to produce:
null, a number, a text string, or an array whose elements are all numbers. -/
def outputShape : Json → Bool
  | .null => true
  | .num _ => true
  | .str _ => true
  | .arr l => l.all isNumJson
  | _ => false

/-- C2: `json_to_mysql` maps a boolean to the unsigned integers 0/1, a
non-negative integer (serde_json's `PosInt` variant) to an unsigned native
integer, a negative integer (`NegInt`) to a signed native integer, a float to
a native float, text to its UTF-8 byte sequence, and null and mappings to
native NULL. -/
theorem C2_scalar_params :
    (∀ b : Bool, json_to_mysql (.bool b) = .UInt (if b then 1 else 0)) ∧
    (∀ n : Nat, json_to_mysql (.num (.pos n)) = .UInt n) ∧
    (∀ i : Int, json_to_mysql (.num (.neg i)) = .Int i) ∧
    (∀ f : F64, json_to_mysql (.num (.float f)) = .Float f) ∧
    (∀ s : String, json_to_mysql (.str s) = .Bytes (utf8Encode s)) ∧
    (json_to_mysql .null = .NULL) ∧
    (∀ o, json_to_mysql (.obj o) = .NULL) :=
  ⟨fun _ => rfl, fun _ => rfl, fun _ => rfl, fun _ => rfl, fun _ => rfl,
    rfl, fun _ => rfl⟩

/-- C6: with the pool slot empty, `do_query` returns the successful result
`status: offline` for every query and parameter text, without reaching the
execution path. -/
theorem C6_offline_result (query : String) (params : Option Json) :
    do_query none query params = .ok (.obj [("status", .str "offline")]) :=
  rfl

/-- C7: a float cell whose value fails `Number::from_f64` (NaN or an
infinity) encodes as the number zero, not an error; every finite float
encodes as that float's number. -/
theorem C7_float_fallback (ct : ColumnType) (bin : Bool) :
    (encode_cell (.Float .nan) ct bin = .num (.pos 0)) ∧
    (encode_cell (.Float .inf) ct bin = .num (.pos 0)) ∧
    (encode_cell (.Float .negInf) ct bin = .num (.pos 0)) ∧
    (∀ s e : Int, encode_cell (.Float (.finite s e)) ct bin =
      .num (.float (.finite s e))) :=
  ⟨rfl, rfl, rfl, fun _ _ => rfl⟩

/-- C1 fails as stated: the array element `-1` is numeric and its low 8 bits
are 255, but `json_to_mysql` produces the byte 0 for it
(`as_u64` fails on a negative integer and `unwrap_or(0)` applies before the
`as u8` truncation). -/
theorem C1_counterexample :
    json_to_mysql (.arr [.num (.neg (-1))]) = .Bytes [0] ∧
    ((-1 : Int) % 256 = 255) ∧ (0 : Nat) ≠ 255 :=
  ⟨rfl, by decide, by decide⟩

/-- C1 amended: a JSON array always becomes a byte sequence with one byte per
element and never an error; an element that is a non-negative integer is
truncated to its low 8 bits, while every other element — non-numeric,
negative integer, or float — becomes the byte 0. -/
theorem C1_array_param (a : List Json) :
    json_to_mysql (.arr a) = .Bytes (a.map arr_elem_byte) ∧
    (∀ n : Nat, arr_elem_byte (.num (.pos n)) = n % 256) ∧
    (∀ i : Int, arr_elem_byte (.num (.neg i)) = 0) ∧
    (∀ f : F64, arr_elem_byte (.num (.float f)) = 0) ∧
    (arr_elem_byte .null = 0) ∧
    (∀ b, arr_elem_byte (.bool b) = 0) ∧
    (∀ s, arr_elem_byte (.str s) = 0) ∧
    (∀ l, arr_elem_byte (.arr l) = 0) ∧
    (∀ o, arr_elem_byte (.obj o) = 0) :=
  ⟨rfl, fun _ => rfl, fun _ => rfl, fun _ => rfl, rfl, fun _ => rfl,
    fun _ => rfl, fun _ => rfl, fun _ => rfl⟩

/-- C4 fails as stated: the year is printed unpadded (`{}`), so the cell
`Date 5 1 2 3 4 5` encodes as `5-01-02 03:04:05`, not the zero-padded
fixed-width `0005-01-02 03:04:05`. -/
theorem C4_counterexample :
    encode_cell (.Date 5 1 2 3 4 5 0) .MYSQL_TYPE_DATETIME false =
      .str "5-01-02 03:04:05" ∧
    "5-01-02 03:04:05" ≠ "0005-01-02 03:04:05" :=
  ⟨rfl, by decide⟩

/-- C4 amended: a date-time cell encodes as
`year-MM-DD HH:MM:SS` where month, day, hour, minute and second are
zero-padded to two digits, the year is printed in plain unpadded decimal,
and the sub-second component is discarded (two cells differing only in the
microsecond field encode identically). -/
theorem C4_date_format (year month day hour minute second ms ms2 : Nat)
    (ct : ColumnType) (bin : Bool) :
    encode_cell (.Date year month day hour minute second ms) ct bin =
      .str (Nat.repr year ++ "-" ++ pad2 month ++ "-" ++ pad2 day ++ " " ++
        pad2 hour ++ ":" ++ pad2 minute ++ ":" ++ pad2 second) ∧
    (∀ n : Nat, pad2 n = if n < 10 then "0" ++ Nat.repr n else Nat.repr n) ∧
    encode_cell (.Date year month day hour minute second ms) ct bin =
      encode_cell (.Date year month day hour minute second ms2) ct bin :=
  ⟨rfl, fun _ => rfl, rfl⟩

/-- C5: every value the per-cell conversion produces is null, a number, a
text string, or an array whose elements are all numbers — never a boolean,
a mapping, or a nested array. -/
theorem C5_output_invariant (v : MysqlValue) (ct : ColumnType) (bin : Bool) :
    outputShape (encode_cell v ct bin) = true := by
  cases v with
  | Bytes b =>
    cases ct <;>
      first
      | rfl
      | (cases bin <;>
          simp [encode_cell, outputShape, List.all_eq_true, isNumJson])
  | NULL => rfl
  | Int i => rfl
  | UInt u => rfl
  | Float f => rfl
  | Date y mo d h mi s ms => rfl
  | Time n d h mi s ms => rfl

/-- C3: a byte-sequence cell encodes as text for the character column types;
for a blob column type it encodes as text exactly when the binary flag is
absent and otherwise as the ordered sequence of its bytes as unsigned
numbers; for every other column type it encodes as null. -/
theorem C3_bytes_cell (b : List Nat) (ct : ColumnType) (bin : Bool) :
    (isCharType ct = true →
      encode_cell (.Bytes b) ct bin = .str (lossyString b)) ∧
    (isBlobType ct = true →
      encode_cell (.Bytes b) ct bin =
        if bin then .arr (b.map (fun x => .num (.pos x)))
        else .str (lossyString b)) ∧
    (isCharType ct = false → isBlobType ct = false →
      encode_cell (.Bytes b) ct bin = .null) := by
  cases ct <;> simp [isCharType, isBlobType, encode_cell]

/-- C3 witness: concrete cells of each of the three classes. -/
theorem C3_bytes_cell_witness :
    encode_cell (.Bytes [1, 2]) .MYSQL_TYPE_VARCHAR false =
      .str (lossyString [1, 2]) ∧
    encode_cell (.Bytes [1, 2]) .MYSQL_TYPE_BLOB true =
      .arr [.num (.pos 1), .num (.pos 2)] ∧
    encode_cell (.Bytes [1, 2]) .MYSQL_TYPE_LONG false = .null := by
  refine ⟨(C3_bytes_cell [1, 2] .MYSQL_TYPE_VARCHAR false).1 rfl, ?_,
    (C3_bytes_cell [1, 2] .MYSQL_TYPE_LONG false).2.2 rfl rfl⟩
  have h := (C3_bytes_cell [1, 2] .MYSQL_TYPE_BLOB true).2.1 rfl
  simpa using h

/-- C8: each numeric `connect` argument that fails to parse falls back to its
documented default (port 3306, timeout 10 s, min_threads 1, max_threads 50),
and a non-numeric port argument makes the call identical to one with
port `3306`. -/
theorem C8_connect_defaults (host port user pass db timeout minT maxT :
    String) :
    (rust_parse_u16 port = none →
      (sql_connect_pool_args host port user pass db timeout minT maxT).port =
        3306 ∧
      sql_connect_pool_args host port user pass db timeout minT maxT =
        sql_connect_pool_args host "3306" user pass db timeout minT maxT) ∧
    (rust_parse_u64 timeout = none →
      (sql_connect_pool_args host port user pass db timeout minT
        maxT).timeoutSecs = 10) ∧
    (rust_parse_usize minT = none →
      (sql_connect_pool_args host port user pass db timeout minT
        maxT).minThreads = 1) ∧
    (rust_parse_usize maxT = none →
      (sql_connect_pool_args host port user pass db timeout minT
        maxT).maxThreads = 50) := by
  refine ⟨fun h => ⟨?_, ?_⟩, fun h => ?_, fun h => ?_, fun h => ?_⟩ <;>
    simp only [sql_connect_pool_args, h, Option.getD_none]
  simp [show rust_parse_u16 "3306" = some 3306 from by decide]

/-- C8 witness: a connect call whose four numeric arguments are all
non-numeric takes all four defaults and equals the call with port `3306`. -/
theorem C8_connect_defaults_witness :
    (sql_connect_pool_args "h" "x" "u" "p" "d" "y" "z" "w").port = 3306 ∧
    sql_connect_pool_args "h" "x" "u" "p" "d" "y" "z" "w" =
      sql_connect_pool_args "h" "3306" "u" "p" "d" "y" "z" "w" ∧
    (sql_connect_pool_args "h" "x" "u" "p" "d" "y" "z" "w").timeoutSecs =
      10 ∧
    (sql_connect_pool_args "h" "x" "u" "p" "d" "y" "z" "w").minThreads = 1 ∧
    (sql_connect_pool_args "h" "x" "u" "p" "d" "y" "z" "w").maxThreads =
      50 := by
  have h := C8_connect_defaults "h" "x" "u" "p" "d" "y" "z" "w"
  exact ⟨(h.1 (by decide)).1, (h.1 (by decide)).2, h.2.1 (by decide),
    h.2.2.1 (by decide), h.2.2.2 (by decide)⟩

/-- C9: an array of integers in `0..=255` decodes to exactly those bytes, and
encoding those bytes back through a binary blob column returns exactly the
original array. -/
theorem C9_binary_roundtrip (l : List Nat) (h : ∀ n ∈ l, n ≤ 255) :
    json_to_mysql (.arr (l.map (fun n => .num (.pos n)))) = .Bytes l ∧
    (∀ ct, isBlobType ct = true →
      encode_cell (.Bytes l) ct true =
        .arr (l.map (fun n => .num (.pos n)))) := by
  constructor
  · show MysqlValue.Bytes ((l.map (fun n => Json.num (.pos n))).map
      arr_elem_byte) = .Bytes l
    congr 1
    rw [List.map_map]
    have heq : ∀ n ∈ l, (arr_elem_byte ∘ fun n => Json.num (.pos n)) n =
        id n := by
      intro n hn
      have hlt : n < 256 := Nat.lt_succ_of_le (h n hn)
      simp [arr_elem_byte, number_as_u64, Nat.mod_eq_of_lt hlt]
    rw [List.map_congr_left heq, List.map_id]
  · intro ct hct
    cases ct <;> simp_all [isBlobType, encode_cell]

/-- C9 witness: the round trip at the concrete array `[0, 128, 255]`. -/
theorem C9_binary_roundtrip_witness :
    json_to_mysql (.arr [.num (.pos 0), .num (.pos 128), .num (.pos 255)]) =
      .Bytes [0, 128, 255] ∧
    encode_cell (.Bytes [0, 128, 255]) .MYSQL_TYPE_BLOB true =
      .arr [.num (.pos 0), .num (.pos 128), .num (.pos 255)] := by
  have h := C9_binary_roundtrip [0, 128, 255] (by decide)
  refine ⟨by simpa using h.1, by simpa using h.2 .MYSQL_TYPE_BLOB rfl⟩

/-- Whenever the lossy decoder reports its input invalid, it has emitted at
least one replacement character. -/
theorem utf8LossyGo_invalid_mem (fuel : Nat) :
    ∀ l : List Nat, (utf8LossyGo fuel l).2 = false →
      repChar ∈ (utf8LossyGo fuel l).1 := by
  induction fuel with
  | zero => intro l h; simp [utf8LossyGo] at h
  | succ n ih =>
    intro l
    cases l with
    | nil => intro h; simp [utf8LossyGo] at h
    | cons b0 rest =>
      simp only [utf8LossyGo]
      repeat' split
      all_goals intro h
      all_goals
        first
        | exact List.mem_cons_of_mem _ (ih _ h)
        | exact List.mem_cons_self _ _

/-- C10: for character-type columns and non-binary blob columns, a
byte-sequence cell always encodes as the total lossy UTF-8 decoding of its
bytes — never an error and never null — and whenever the bytes are not valid
UTF-8 the decoded text contains the replacement character U+FFFD. -/
theorem C10_lossy_text_total (b : List Nat) (ct : ColumnType) :
    (isCharType ct = true →
      ∀ bin, encode_cell (.Bytes b) ct bin = .str (lossyString b)) ∧
    (isBlobType ct = true →
      encode_cell (.Bytes b) ct false = .str (lossyString b)) ∧
    (isValidUtf8 b = false → repChar ∈ (lossyString b).data) := by
  refine ⟨fun hc bin => ?_, fun hb => ?_, fun hv => ?_⟩
  · cases ct <;> simp_all [isCharType, encode_cell]
  · cases ct <;> simp_all [isBlobType, encode_cell]
  · exact utf8LossyGo_invalid_mem b.length b hv

/-- C10 witness: the invalid byte sequence `[0xFF, 0x41]` under a character
column and a non-binary blob column. -/
theorem C10_lossy_text_total_witness :
    encode_cell (.Bytes [0xFF, 0x41]) .MYSQL_TYPE_VARCHAR true =
      .str (lossyString [0xFF, 0x41]) ∧
    encode_cell (.Bytes [0xFF, 0x41]) .MYSQL_TYPE_BLOB false =
      .str (lossyString [0xFF, 0x41]) ∧
    repChar ∈ (lossyString [0xFF, 0x41]).data :=
  ⟨(C10_lossy_text_total [0xFF, 0x41] .MYSQL_TYPE_VARCHAR).1 rfl true,
    (C10_lossy_text_total [0xFF, 0x41] .MYSQL_TYPE_BLOB).2.1 rfl,
    (C10_lossy_text_total [0xFF, 0x41] .MYSQL_TYPE_VARCHAR).2.2 (by decide)⟩
